import Mathlib

/-!
Verification of the glium-glyph adapter layer.

The repository is a thin glue layer between an external text-layout engine
(`glyph_brush`) and an external OpenGL backend (`glium`).  We embed the code
of `src/lib.rs` and `src/builder.rs` shallowly:

* `f32` arithmetic in the vertex adapter is modelled over `ℚ` (exact
  rational arithmetic; the spec's claims are stated "within floating-point
  tolerance", and over `ℚ` they hold exactly);
* the opaque layout engine is modelled as an oracle: a sequence of responses
  to successive `process_queued` calls, each response carrying the texture
  uploads the engine performs through the upload callback and the resulting
  `Result<BrushAction, BrushError>`;
* GPU side effects (texture writes, reallocation, buffer creation, the draw
  call) are recorded in an explicit command trace;
* the source's unbounded `loop` is given fuel; `none` means the fuel was
  exhausted with the loop still running;
* `Result::unwrap` / panics are modelled by `Option`: `none` is a propagated
  panic.
-/

namespace GliumGlyph

/-- A 2-d point with rational coordinates (models `rusttype::Point<f32>`). -/
structure P2 where
  x : ℚ
  y : ℚ
deriving DecidableEq, Repr

/-- A rectangle given by min/max corners (models `rusttype::Rect<f32>`). -/
structure RectQ where
  min : P2
  max : P2
deriving DecidableEq, Repr

/-- Width of a rectangle, `rusttype::Rect::width = max.x - min.x`. -/
def RectQ.width (r : RectQ) : ℚ := r.max.x - r.min.x

/-- Height of a rectangle, `rusttype::Rect::height = max.y - min.y`. -/
def RectQ.height (r : RectQ) : ℚ := r.max.y - r.min.y

/-- A 2-d point with integer coordinates (models `rusttype::Point<i32>`). -/
structure P2Z where
  x : ℤ
  y : ℤ
deriving DecidableEq, Repr

/-- A rectangle with integer corners (models `rusttype::Rect<i32>`,
the `pixel_coords` of a positioned glyph). -/
structure RectZ where
  min : P2Z
  max : P2Z
deriving DecidableEq, Repr

/-- Input to the vertex adapter: the fields of `glyph_brush::GlyphVertex`
destructured at the head of `to_vertex` in `src/lib.rs`. -/
structure GBVertexIn where
  tex_coords : RectQ
  pixel_coords : RectZ
  bounds : RectQ
  screen_w : ℚ
  screen_h : ℚ
  color : ℚ × ℚ × ℚ × ℚ
  z : ℚ
deriving DecidableEq, Repr

/-- Output of the vertex adapter: the crate's own `GlyphVertex` struct
(`left_top`, `right_bottom`, `tex_left_top`, `tex_right_bottom`, `color`). -/
structure GlyphVertex where
  left_top : ℚ × ℚ × ℚ
  right_bottom : ℚ × ℚ
  tex_left_top : ℚ × ℚ
  tex_right_bottom : ℚ × ℚ
  color : ℚ × ℚ × ℚ × ℚ
deriving DecidableEq, Repr

/-- The x-coordinate map from screen space to gl space used in `to_vertex`:
`2.0 * (x / screen_w - 0.5)`. -/
def glMapX (sw x : ℚ) : ℚ := 2 * (x / sw - 1/2)

/-- The y-coordinate map from screen space to gl space used in `to_vertex`:
`2.0 * (0.5 - y / screen_h)` (the y axis is flipped). -/
def glMapY (sh y : ℚ) : ℚ := 2 * (1/2 - y / sh)

/-- The `gl_bounds` rectangle computed at the start of `to_vertex`. -/
def glBounds (v : GBVertexIn) : RectQ :=
  ⟨⟨glMapX v.screen_w v.bounds.min.x, glMapY v.screen_h v.bounds.min.y⟩,
   ⟨glMapX v.screen_w v.bounds.max.x, glMapY v.screen_h v.bounds.max.y⟩⟩

/-- The initial `gl_rect` rectangle computed in `to_vertex` from the glyph's
integer pixel coordinates (the `as f32` casts become `Int.cast`). -/
def glRect0 (v : GBVertexIn) : RectQ :=
  ⟨⟨glMapX v.screen_w (v.pixel_coords.min.x : ℚ),
    glMapY v.screen_h (v.pixel_coords.min.y : ℚ)⟩,
   ⟨glMapX v.screen_w (v.pixel_coords.max.x : ℚ),
    glMapY v.screen_h (v.pixel_coords.max.y : ℚ)⟩⟩

/-- First clamp step of `to_vertex`: `if gl_rect.max.x > gl_bounds.max.x`,
clamp the right edge and rescale `tex_coords.max.x`. -/
def clampMaxX (b : RectQ) (rt : RectQ × RectQ) : RectQ × RectQ :=
  let r := rt.1
  let t := rt.2
  if b.max.x < r.max.x then
    let old_width := r.width
    let r2 : RectQ := { r with max := { r.max with x := b.max.x } }
    (r2, { t with max := { t.max with
             x := t.min.x + t.width * r2.width / old_width } })
  else rt

/-- Second clamp step of `to_vertex`: `if gl_rect.min.x < gl_bounds.min.x`,
clamp the left edge and rescale `tex_coords.min.x`. -/
def clampMinX (b : RectQ) (rt : RectQ × RectQ) : RectQ × RectQ :=
  let r := rt.1
  let t := rt.2
  if r.min.x < b.min.x then
    let old_width := r.width
    let r2 : RectQ := { r with min := { r.min with x := b.min.x } }
    (r2, { t with min := { t.min with
             x := t.max.x - t.width * r2.width / old_width } })
  else rt

/-- Third clamp step of `to_vertex`: `if gl_rect.max.y < gl_bounds.max.y`
(gl y runs opposite to screen y), clamp and rescale `tex_coords.max.y`. -/
def clampMaxY (b : RectQ) (rt : RectQ × RectQ) : RectQ × RectQ :=
  let r := rt.1
  let t := rt.2
  if r.max.y < b.max.y then
    let old_height := r.height
    let r2 : RectQ := { r with max := { r.max with y := b.max.y } }
    (r2, { t with max := { t.max with
             y := t.min.y + t.height * r2.height / old_height } })
  else rt

/-- Fourth clamp step of `to_vertex`: `if gl_rect.min.y > gl_bounds.min.y`,
clamp and rescale `tex_coords.min.y`. -/
def clampMinY (b : RectQ) (rt : RectQ × RectQ) : RectQ × RectQ :=
  let r := rt.1
  let t := rt.2
  if b.min.y < r.min.y then
    let old_height := r.height
    let r2 : RectQ := { r with min := { r.min with y := b.min.y } }
    (r2, { t with min := { t.min with
             y := t.max.y - t.height * r2.height / old_height } })
  else rt

/-- The four sequential clamp steps of `to_vertex`, applied in source order
(right, left, bottom-in-screen-terms, top-in-screen-terms); each step sees
the rectangle and texture coordinates as mutated by the previous steps. -/
def clampPipeline (b : RectQ) (rt : RectQ × RectQ) : RectQ × RectQ :=
  clampMinY b (clampMaxY b (clampMinX b (clampMaxX b rt)))

/-- The vertex adapter `to_vertex` from `src/lib.rs`: convert one positioned
glyph into one renderer vertex, clamping against the clip bounds. -/
def to_vertex (v : GBVertexIn) : GlyphVertex :=
  let rt := clampPipeline (glBounds v) (glRect0 v, v.tex_coords)
  let gl_rect := rt.1
  let tex_coords := rt.2
  { left_top := (gl_rect.min.x, gl_rect.max.y, v.z)
    right_bottom := (gl_rect.max.x, gl_rect.min.y)
    tex_left_top := (tex_coords.min.x, tex_coords.max.y)
    tex_right_bottom := (tex_coords.max.x, tex_coords.min.y)
    color := v.color }

/-- A rectangle with `u32` corners, as handed to the upload callback
(`rusttype::Rect<u32>`). -/
structure RectU where
  min : Nat × Nat
  max : Nat × Nat
deriving DecidableEq, Repr

/-- Width of a `u32` rectangle. -/
def RectU.width (r : RectU) : Nat := r.max.1 - r.min.1

/-- Height of a `u32` rectangle. -/
def RectU.height (r : RectU) : Nat := r.max.2 - r.min.2

/-- The target struct of `rect_to_rect` (`glium::Rect`). -/
structure GliumRect where
  left : Nat
  bottom : Nat
  width : Nat
  height : Nat
deriving DecidableEq, Repr

/-- The helper `rect_to_rect` from `src/lib.rs`. -/
def rect_to_rect (rect : RectU) : GliumRect :=
  { left := rect.min.1, bottom := rect.min.2,
    width := rect.width, height := rect.height }

/-- The raw image descriptor built by `update_texture`; the pixel bytes are
abstracted to their count (`format` is always `ClientFormat::U8`). -/
structure RawImage2d where
  dataLen : Nat
  width : Nat
  height : Nat
deriving DecidableEq, Repr

/-- Texture wrap functions of the external backend
(`glium::uniforms::SamplerWrapFunction`). -/
inductive WrapFn where
  | Repeat
  | Mirror
  | Clamp
  | MirrorClamp
deriving DecidableEq, Repr

/-- Minify filters of the external backend. -/
inductive MinFilter where
  | Nearest
  | Linear
  | NearestMipmapNearest
  | LinearMipmapNearest
  | NearestMipmapLinear
  | LinearMipmapLinear
deriving DecidableEq, Repr

/-- Magnify filters of the external backend. -/
inductive MagFilter where
  | Nearest
  | Linear
deriving DecidableEq, Repr

/-- Sampler configuration built in `draw_queued_with_transform`. -/
structure Sampler where
  wrap : WrapFn
  minify : MinFilter
  magnify : MagFilter
deriving DecidableEq, Repr

/-- Model of `glium::uniforms::Sampler::new`.  The concrete default values
belong to the external backend and are irrelevant here: every field this
crate reads is explicitly overridden by the setter chain below. -/
def Sampler.new : Sampler :=
  { wrap := .Repeat, minify := .Linear, magnify := .Linear }

/-- The `wrap_function` builder method on a sampler. -/
def Sampler.wrap_function (s : Sampler) (w : WrapFn) : Sampler :=
  { s with wrap := w }

/-- The `minify_filter` builder method on a sampler. -/
def Sampler.minify_filter (s : Sampler) (m : MinFilter) : Sampler :=
  { s with minify := m }

/-- The `magnify_filter` builder method on a sampler. -/
def Sampler.magnify_filter (s : Sampler) (m : MagFilter) : Sampler :=
  { s with magnify := m }

/-- Index primitive used by the crate (`glium::index::PrimitiveType` inside
`NoIndices`); only `TriangleStrip` is ever constructed. -/
inductive PrimitiveType where
  | TriangleStrip
  | TrianglesList
deriving DecidableEq, Repr

/-- The crate's per-instance dummy vertex `InstanceVertex { v : f32 }`. -/
structure InstanceVertex where
  v : ℚ
deriving DecidableEq, Repr

/-- Draw parameters assembled by the constructors (the fields of
`glium::DrawParameters` this crate sets). -/
structure DrawParams where
  depthTestIfLess : Bool
  depthWrite : Bool
  alphaBlend : Bool
deriving DecidableEq, Repr

/-- The layout engine's tracked atlas dimensions (the state behind
`glyph_brush::GlyphBrush::texture_dimensions` / `resize_texture`). -/
structure EngineState where
  texW : Nat
  texH : Nat
deriving DecidableEq, Repr

/-- The engine operation `resize_texture(width, height)`. -/
def EngineState.resize_texture (_e : EngineState) (w h : Nat) : EngineState :=
  ⟨w, h⟩

/-- The state of this crate's `GlyphBrush` struct: the wrapped engine, the
draw parameters, the GPU texture (reduced to its dimensions), the index
buffer mode and the saved vertices `verts`. -/
structure BrushState where
  engine : EngineState
  params : DrawParams
  texW : Nat
  texH : Nat
  index_buffer : PrimitiveType
  verts : List GlyphVertex
deriving DecidableEq, Repr

/-- Result action of `process_queued` (`glyph_brush::BrushAction`). -/
inductive BrushAction where
  | Draw (verts : List GlyphVertex)
  | ReDraw
deriving DecidableEq, Repr

/-- Error of `process_queued` (`glyph_brush::BrushError`): the atlas is too
small, with a suggested new size. -/
inductive BrushError where
  | TextureTooSmall (suggested : Nat × Nat)
deriving DecidableEq, Repr

/-- The `Result<BrushAction, BrushError>` returned by `process_queued`. -/
abbrev BrushResult := Except BrushError BrushAction

/-- One response of the opaque layout engine to a `process_queued` call: the
texture-region uploads it performs through the upload callback, and the
returned result.  A rectangle is paired with the byte count of its data. -/
structure EngineResp where
  uploads : List (RectU × Nat)
  result : BrushResult

/-- The opaque layout engine, modelled as the sequence of its responses to
successive `process_queued` calls within one draw. -/
abbrev Oracle := Nat → EngineResp

/-- GPU commands issued to the external backend, recorded as a trace. -/
inductive Cmd where
  | texWrite (r : GliumRect) (img : RawImage2d)
  | texAlloc (w h : Nat)
  | vbCreate (n : Nat)
  | instCreate (vs : List InstanceVertex)
  | draw (instances : List InstanceVertex) (instanceCount : Nat)
      (ib : PrimitiveType) (sampler : Sampler)
      (transform : List (List ℚ)) (params : DrawParams)
deriving DecidableEq, Repr

/-- The helper `update_texture` from `src/lib.rs`: wrap the data in a
`RawImage2d` (format `U8`, dimensions from the rectangle) and write it at
`rect_to_rect rect`. -/
def update_texture (rect : RectU) (dataLen : Nat) : Cmd :=
  .texWrite (rect_to_rect rect)
    { dataLen := dataLen, width := rect.width, height := rect.height }

/-- Identity transform constant `IDENTITY_MATRIX4` from `src/lib.rs`. -/
def IDENTITY_MATRIX4 : List (List ℚ) :=
  [[1, 0, 0, 0],
   [0, 1, 0, 0],
   [0, 0, 1, 0],
   [0, 0, 0, 1]]

/-- Model of `Result::unwrap`: `none` is a propagated panic. -/
def unwrapResult : BrushResult → Option BrushAction
  | .ok a => some a
  | .error _ => none

/-- The resize-retry `loop` of `draw_queued_with_transform`, run with fuel.
Each iteration calls `process_queued` (one oracle response: the uploads go
through `update_texture`), then matches the result: `Ok` breaks out of the
loop keeping `brush_action`; `Err(TextureTooSmall { suggested })` replaces
the texture with a fresh one of exactly the suggested size and calls
`resize_texture` with the same size, then retries.  `none` means the fuel
ran out with the loop still running: the source loop is unbounded. -/
def drawLoop (o : Oracle) : Nat → Nat → BrushState → List Cmd →
    Option (BrushState × List Cmd × BrushResult)
  | 0, _, _, _ => none
  | fuel + 1, i, s, tr =>
    let resp := o i
    let brush_action := resp.result
    let tr2 := tr ++ resp.uploads.map (fun u => update_texture u.1 u.2)
    match brush_action with
    | .ok _ => some (s, tr2, brush_action)
    | .error (.TextureTooSmall suggested) =>
      let nwidth := suggested.1
      let nheight := suggested.2
      let s2 := { s with
        texW := nwidth, texH := nheight,
        engine := s.engine.resize_texture nwidth nheight }
      drawLoop o fuel (i + 1) s2 (tr2 ++ [.texAlloc nwidth nheight])

/-- The method `draw_queued_with_transform` from `src/lib.rs`: run the
resize-retry loop, build the sampler (clamp wrap, linear filters), unwrap
the brush action, store fresh vertices on `Draw` and keep the old ones on
`ReDraw`, create the vertex buffer and the constant 4-element instance
buffer, and issue the single instanced draw call. -/
def draw_queued_with_transform (transform : List (List ℚ)) (o : Oracle)
    (fuel : Nat) (s : BrushState) : Option (BrushState × List Cmd) :=
  match drawLoop o fuel 0 s [] with
  | none => none
  | some (s1, tr, brush_action) =>
    let sampler := ((Sampler.new.wrap_function .Clamp).minify_filter
        .Linear).magnify_filter .Linear
    match unwrapResult brush_action with
    | none => none
    | some a =>
      let s2 := match a with
        | .Draw verts => { s1 with verts := verts }
        | .ReDraw => s1
      let instances := List.replicate 4 ({ v := 0 } : InstanceVertex)
      let tr2 := tr ++
        [.vbCreate s2.verts.length,
         .instCreate instances,
         .draw instances s2.verts.length s2.index_buffer sampler
           transform s2.params]
      some (s2, tr2)

/-- The method `draw_queued` from `src/lib.rs`: delegate to
`draw_queued_with_transform` with `IDENTITY_MATRIX4`. -/
def draw_queued (o : Oracle) (fuel : Nat) (s : BrushState) :
    Option (BrushState × List Cmd) :=
  draw_queued_with_transform IDENTITY_MATRIX4 o fuel s

/-- The graphics context handed to the constructors; fallible external
operations are reduced to whether they succeed.  A `false` flag makes the
corresponding `.unwrap()` panic. -/
structure Facade where
  programOk : Bool
  textureOk : Bool
  bufferOk : Bool
deriving DecidableEq, Repr

/-- The builder configuration consumed by `GlyphBrushBuilder::build`: the
`initial_cache_size` of the wrapped `glyph_brush` builder. -/
structure BuilderCfg where
  initial_cache_size : Nat × Nat
deriving DecidableEq, Repr

/-- The method `GlyphBrushBuilder::build` from `src/builder.rs`: read
`initial_cache_size`, build the inner engine (which starts tracking that
atlas size), compile the shader program (`.unwrap()`), allocate the empty
texture at `(cache_width, cache_height)` (`.unwrap()`), create the index
buffer (`NoIndices(TriangleStrip)`), the 4-element instance buffer and the
empty vertex buffer (`.unwrap()`), and assemble the `GlyphBrush`.  A `none`
result is a propagated panic: no partially constructed value escapes. -/
def GlyphBrushBuilder.build (cfg : BuilderCfg) (f : Facade) :
    Option BrushState :=
  let cache_width := cfg.initial_cache_size.1
  let cache_height := cfg.initial_cache_size.2
  let glyph_brush : EngineState := ⟨cache_width, cache_height⟩
  if f.programOk then
    if f.textureOk then
      if f.bufferOk then
        some { engine := glyph_brush,
               params := { depthTestIfLess := false, depthWrite := false,
                           alphaBlend := true },
               texW := cache_width, texH := cache_height,
               index_buffer := .TriangleStrip, verts := [] }
      else none
    else none
  else none

/-- The constructor `GlyphBrush::new` from `src/lib.rs`: build the inner
engine (its initial atlas size `engineDims` comes from the opaque engine's
defaults), compile the shader program (`.unwrap()`), set depth-test and
alpha-blend draw parameters, read `texture_dimensions()` from the engine and
allocate the empty texture at exactly those dimensions (`.unwrap()`). -/
def GlyphBrush.new (f : Facade) (engineDims : Nat × Nat) :
    Option BrushState :=
  let glyph_brush : EngineState := ⟨engineDims.1, engineDims.2⟩
  if f.programOk then
    let twidth := glyph_brush.texW
    let theight := glyph_brush.texH
    if f.textureOk then
      some { engine := glyph_brush,
             params := { depthTestIfLess := true, depthWrite := true,
                         alphaBlend := true },
             texW := twidth, texH := theight,
             index_buffer := .TriangleStrip, verts := [] }
    else none
  else none

/-- Discriminator for draw commands in the trace. -/
def Cmd.isDraw : Cmd → Bool
  | .draw _ _ _ _ _ _ => true
  | _ => false

/-- The default transform as the spec describes it: the 4×4 identity matrix
(entry 1 on the diagonal, 0 elsewhere).  Written from the spec's words, to
be compared with the source constant `IDENTITY_MATRIX4`. -/
def identityMatrixSpec : List (List ℚ) :=
  (List.range 4).map (fun i => (List.range 4).map
    (fun j => if i = j then 1 else 0))

/-- A concrete renderer vertex used as test data. -/
def testVertex : GlyphVertex :=
  { left_top := (0, 0, 0), right_bottom := (0, 0),
    tex_left_top := (0, 0), tex_right_bottom := (0, 0),
    color := (1, 1, 1, 1) }

/-- A concrete brush state used as test data: a 256×256 atlas (matching the
engine), one stored vertex. -/
def testState : BrushState :=
  { engine := ⟨256, 256⟩,
    params := { depthTestIfLess := false, depthWrite := false,
                alphaBlend := true },
    texW := 256, texH := 256,
    index_buffer := .TriangleStrip, verts := [testVertex] }

/-- An engine that reports `TextureTooSmall` on every attempt, always with
the same (non-increasing) suggested size. -/
def alwaysTooSmallOracle : Oracle :=
  fun _ => ⟨[], .error (.TextureTooSmall (256, 256))⟩

/-- An engine whose first response is "unchanged since last frame"
(`ReDraw`), as the cache reports on a second draw with no intervening
queue calls. -/
def redrawOracle : Oracle := fun _ => ⟨[], .ok .ReDraw⟩

/-- An engine whose first response carries fresh vertex data. -/
def drawOracle : Oracle := fun _ => ⟨[], .ok (.Draw [])⟩

/-- The command trace produced by one draw of `testState` against
`redrawOracle`. -/
def testTrace : List Cmd :=
  [.vbCreate 1,
   .instCreate (List.replicate 4 ({ v := 0 } : InstanceVertex)),
   .draw (List.replicate 4 ({ v := 0 } : InstanceVertex)) 1 .TriangleStrip
     ⟨.Clamp, .Linear, .Linear⟩ IDENTITY_MATRIX4
     { depthTestIfLess := false, depthWrite := false, alphaBlend := true }]

/-- A concrete adapter input whose pixel rectangle lies fully inside the
clip bounds. -/
def insideIn : GBVertexIn :=
  { tex_coords := ⟨⟨0, 0⟩, ⟨1, 1⟩⟩,
    pixel_coords := ⟨⟨10, 10⟩, ⟨20, 20⟩⟩,
    bounds := ⟨⟨0, 0⟩, ⟨100, 100⟩⟩,
    screen_w := 100, screen_h := 100,
    color := (1, 1, 1, 1), z := 0 }

/-- A concrete adapter input whose pixel rectangle exceeds the clip bounds
on exactly the right edge (clip right bound 5, pixel rectangle 0–10). -/
def rightClipIn : GBVertexIn :=
  { tex_coords := ⟨⟨0, 0⟩, ⟨1, 1⟩⟩,
    pixel_coords := ⟨⟨0, 0⟩, ⟨10, 10⟩⟩,
    bounds := ⟨⟨0, 0⟩, ⟨5, 100⟩⟩,
    screen_w := 100, screen_h := 100,
    color := (1, 1, 1, 1), z := 0 }

/-- Texture uploads are not draw calls. -/
lemma countP_isDraw_uploads (l : List (RectU × Nat)) :
    (l.map (fun u => update_texture u.1 u.2)).countP Cmd.isDraw = 0 := by
  induction l with
  | nil => rfl
  | cons u t ih => simp [List.countP_cons, update_texture, Cmd.isDraw, ih]

/-- Key properties of the resize-retry loop, by induction on the fuel.
Whenever the loop exits: the stored result is an `Ok` (so the `unwrap`
after the loop succeeds); the saved vertices, index buffer and draw
parameters are untouched; the loop emits no draw command; and equality of
the GPU texture dimensions with the engine's tracked atlas dimensions is
preserved (a resize re-establishes it outright, since the texture is
reallocated to exactly the suggested size and `resize_texture` is called
with the same size). -/
lemma drawLoop_props (o : Oracle) : ∀ (fuel i : Nat) (s : BrushState)
    (tr : List Cmd) (out : BrushState × List Cmd × BrushResult),
    drawLoop o fuel i s tr = some out →
    (unwrapResult out.2.2).isSome = true ∧
    out.1.verts = s.verts ∧
    out.1.index_buffer = s.index_buffer ∧
    out.1.params = s.params ∧
    out.2.1.countP Cmd.isDraw = tr.countP Cmd.isDraw ∧
    (s.texW = s.engine.texW → s.texH = s.engine.texH →
      out.1.texW = out.1.engine.texW ∧ out.1.texH = out.1.engine.texH) := by
  intro fuel
  induction fuel with
  | zero =>
    intro i s tr out h
    simp [drawLoop] at h
  | succ n ih =>
    intro i s tr out h
    simp only [drawLoop] at h
    rcases hres : (o i).result with e | a
    · rcases e with ⟨⟨nw, nh⟩⟩
      simp only [hres] at h
      have hp := ih _ _ _ _ h
      refine ⟨hp.1, hp.2.1, hp.2.2.1, hp.2.2.2.1, ?_, ?_⟩
      · rw [hp.2.2.2.2.1, List.countP_append, List.countP_append,
          countP_isDraw_uploads]
        rfl
      · intro _ _
        exact hp.2.2.2.2.2 rfl rfl
    · simp only [hres] at h
      injection h with h
      subst h
      refine ⟨by simp [unwrapResult], rfl, rfl, rfl, ?_, fun h1 h2 => ⟨h1, h2⟩⟩
      rw [List.countP_append, countP_isDraw_uploads, Nat.add_zero]

/-- With an engine that reports `TextureTooSmall` on every attempt, the
loop never exits, whatever the fuel. -/
lemma drawLoop_allTooSmall_none (o : Oracle)
    (hall : ∀ i, ∃ d, (o i).result = .error (.TextureTooSmall d)) :
    ∀ (fuel i : Nat) (s : BrushState) (tr : List Cmd),
    drawLoop o fuel i s tr = none := by
  intro fuel
  induction fuel with
  | zero => intro i s tr; rfl
  | succ n ih =>
    intro i s tr
    obtain ⟨d, hd⟩ := hall i
    simp only [drawLoop, hd]
    exact ih _ _ _

/-- With an engine that reports `TextureTooSmall` on every attempt, the
whole draw never completes, whatever the fuel. -/
lemma draw_allTooSmall_none (o : Oracle)
    (hall : ∀ i, ∃ d, (o i).result = .error (.TextureTooSmall d))
    (t : List (List ℚ)) (fuel : Nat) (s : BrushState) :
    draw_queued_with_transform t o fuel s = none := by
  unfold draw_queued_with_transform
  rw [drawLoop_allTooSmall_none o hall fuel 0 s []]

/-- Inversion of a completed `draw_queued_with_transform`: it runs the loop
to an `Ok` action, updates the saved vertices on `Draw` and keeps them on
`ReDraw`, and appends the vertex-buffer creation, the constant instance
quad and the single draw command to the trace. -/
lemma draw_queued_with_transform_inv (t : List (List ℚ)) (o : Oracle)
    (fuel : Nat) (s s' : BrushState) (tr : List Cmd)
    (h : draw_queued_with_transform t o fuel s = some (s', tr)) :
    ∃ s1 tr1 r a, drawLoop o fuel 0 s [] = some (s1, tr1, r) ∧
      unwrapResult r = some a ∧
      s' = (match a with
            | .Draw verts => { s1 with verts := verts }
            | .ReDraw => s1) ∧
      tr = tr1 ++
        [.vbCreate s'.verts.length,
         .instCreate (List.replicate 4 ({ v := 0 } : InstanceVertex)),
         .draw (List.replicate 4 ({ v := 0 } : InstanceVertex))
           s'.verts.length s'.index_buffer
           (((Sampler.new.wrap_function .Clamp).minify_filter
             .Linear).magnify_filter .Linear) t s'.params] := by
  unfold draw_queued_with_transform at h
  rcases hl : drawLoop o fuel 0 s [] with _ | ⟨s1, tr1, r⟩
  · simp only [hl] at h
    exact Option.noConfusion h
  · simp only [hl] at h
    rcases hu : unwrapResult r with _ | a
    · simp only [hu] at h
      exact Option.noConfusion h
    · simp only [hu] at h
      injection h with h
      injection h with h1 h2
      subst h1
      subst h2
      exact ⟨s1, tr1, r, a, rfl, hu, rfl, rfl⟩

/-- The gl x-map is strictly monotone for a positive screen width. -/
lemma glMapX_lt_iff (sw a b : ℚ) (hsw : 0 < sw) :
    glMapX sw a < glMapX sw b ↔ a < b := by
  unfold glMapX
  rw [mul_lt_mul_left (by norm_num : (0 : ℚ) < 2), sub_lt_sub_iff_right,
    div_lt_div_iff_of_pos_right hsw]

/-- The gl y-map is strictly antitone for a positive screen height. -/
lemma glMapY_lt_iff (sh a b : ℚ) (hsh : 0 < sh) :
    glMapY sh a < glMapY sh b ↔ b < a := by
  unfold glMapY
  rw [mul_lt_mul_left (by norm_num : (0 : ℚ) < 2), sub_lt_sub_iff_left,
    div_lt_div_iff_of_pos_right hsh]

/-- Differences transform through the gl x-map with factor `2 / sw`. -/
lemma glMapX_sub (sw a b : ℚ) :
    glMapX sw a - glMapX sw b = 2 * (a - b) / sw := by
  unfold glMapX
  ring

/-- Differences transform through the gl y-map with factor `-2 / sh`. -/
lemma glMapY_sub (sh a b : ℚ) :
    glMapY sh a - glMapY sh b = 2 * (b - a) / sh := by
  unfold glMapY
  ring

/-- The clamp ratio computed in gl space cancels the common affine factor,
leaving the ratio of the underlying screen-space widths. -/
lemma ratio_cancel (w A B sw : ℚ) (hsw : sw ≠ 0) (hB : B ≠ 0) :
    w * (2 * A / sw) / (2 * B / sw) = w * (A / B) := by
  field_simp
  ring

/-- A clamp step that does not trigger leaves its input unchanged
(right-edge step). -/
lemma clampMaxX_skip (b r t : RectQ) (h : ¬ b.max.x < r.max.x) :
    clampMaxX b (r, t) = (r, t) := by
  simp only [clampMaxX]
  exact if_neg h

/-- A clamp step that does not trigger leaves its input unchanged
(left-edge step). -/
lemma clampMinX_skip (b r t : RectQ) (h : ¬ r.min.x < b.min.x) :
    clampMinX b (r, t) = (r, t) := by
  simp only [clampMinX]
  exact if_neg h

/-- A clamp step that does not trigger leaves its input unchanged
(gl-max-y step). -/
lemma clampMaxY_skip (b r t : RectQ) (h : ¬ r.max.y < b.max.y) :
    clampMaxY b (r, t) = (r, t) := by
  simp only [clampMaxY]
  exact if_neg h

/-- A clamp step that does not trigger leaves its input unchanged
(gl-min-y step). -/
lemma clampMinY_skip (b r t : RectQ) (h : ¬ b.min.y < r.min.y) :
    clampMinY b (r, t) = (r, t) := by
  simp only [clampMinY]
  exact if_neg h

/-- A triggered right-edge step clamps the rectangle's right edge to the
bound and rescales the texture right edge by the width ratio. -/
lemma clampMaxX_trigger (b r t : RectQ) (h : b.max.x < r.max.x) :
    clampMaxX b (r, t) =
      (⟨r.min, ⟨b.max.x, r.max.y⟩⟩,
       ⟨t.min, ⟨t.min.x + t.width * (b.max.x - r.min.x) / r.width,
         t.max.y⟩⟩) := by
  simp only [clampMaxX, RectQ.width]
  rw [if_pos h]

/-- A triggered left-edge step clamps the rectangle's left edge to the
bound and rescales the texture left edge by the width ratio. -/
lemma clampMinX_trigger (b r t : RectQ) (h : r.min.x < b.min.x) :
    clampMinX b (r, t) =
      (⟨⟨b.min.x, r.min.y⟩, r.max⟩,
       ⟨⟨t.max.x - t.width * (r.max.x - b.min.x) / r.width, t.min.y⟩,
         t.max⟩) := by
  simp only [clampMinX, RectQ.width]
  rw [if_pos h]

/-- A triggered gl-max-y step clamps and rescales the texture max-y edge by
the height ratio. -/
lemma clampMaxY_trigger (b r t : RectQ) (h : r.max.y < b.max.y) :
    clampMaxY b (r, t) =
      (⟨r.min, ⟨r.max.x, b.max.y⟩⟩,
       ⟨t.min, ⟨t.max.x,
         t.min.y + t.height * (b.max.y - r.min.y) / r.height⟩⟩) := by
  simp only [clampMaxY, RectQ.height]
  rw [if_pos h]

/-- A triggered gl-min-y step clamps and rescales the texture min-y edge by
the height ratio. -/
lemma clampMinY_trigger (b r t : RectQ) (h : b.min.y < r.min.y) :
    clampMinY b (r, t) =
      (⟨⟨r.min.x, b.min.y⟩, r.max⟩,
       ⟨⟨t.min.x, t.max.y - t.height * (r.max.y - b.min.y) / r.height⟩,
         t.max⟩) := by
  simp only [clampMinY, RectQ.height]
  rw [if_pos h]

/-- The pipeline when no step triggers: full pass-through. -/
lemma clampPipeline_skip_all (b r t : RectQ)
    (n1 : ¬ b.max.x < r.max.x) (n2 : ¬ r.min.x < b.min.x)
    (n3 : ¬ r.max.y < b.max.y) (n4 : ¬ b.min.y < r.min.y) :
    clampPipeline b (r, t) = (r, t) := by
  unfold clampPipeline
  rw [clampMaxX_skip b r t n1, clampMinX_skip b r t n2,
    clampMaxY_skip b r t n3, clampMinY_skip b r t n4]

/-- The pipeline when only the right-edge step triggers. -/
lemma clampPipeline_only_maxX (b r t : RectQ)
    (f1 : b.max.x < r.max.x) (n2 : ¬ r.min.x < b.min.x)
    (n3 : ¬ r.max.y < b.max.y) (n4 : ¬ b.min.y < r.min.y) :
    clampPipeline b (r, t) =
      (⟨r.min, ⟨b.max.x, r.max.y⟩⟩,
       ⟨t.min, ⟨t.min.x + t.width * (b.max.x - r.min.x) / r.width,
         t.max.y⟩⟩) := by
  unfold clampPipeline
  rw [clampMaxX_trigger b r t f1]
  rw [clampMinX_skip b _ _ (by exact n2), clampMaxY_skip b _ _ (by exact n3),
    clampMinY_skip b _ _ (by exact n4)]

/-- The pipeline when only the left-edge step triggers. -/
lemma clampPipeline_only_minX (b r t : RectQ)
    (n1 : ¬ b.max.x < r.max.x) (f2 : r.min.x < b.min.x)
    (n3 : ¬ r.max.y < b.max.y) (n4 : ¬ b.min.y < r.min.y) :
    clampPipeline b (r, t) =
      (⟨⟨b.min.x, r.min.y⟩, r.max⟩,
       ⟨⟨t.max.x - t.width * (r.max.x - b.min.x) / r.width, t.min.y⟩,
         t.max⟩) := by
  unfold clampPipeline
  rw [clampMaxX_skip b r t n1, clampMinX_trigger b r t f2]
  rw [clampMaxY_skip b _ _ (by exact n3), clampMinY_skip b _ _ (by exact n4)]

/-- The pipeline when only the gl-max-y (screen bottom) step triggers. -/
lemma clampPipeline_only_maxY (b r t : RectQ)
    (n1 : ¬ b.max.x < r.max.x) (n2 : ¬ r.min.x < b.min.x)
    (f3 : r.max.y < b.max.y) (n4 : ¬ b.min.y < r.min.y) :
    clampPipeline b (r, t) =
      (⟨r.min, ⟨r.max.x, b.max.y⟩⟩,
       ⟨t.min, ⟨t.max.x,
         t.min.y + t.height * (b.max.y - r.min.y) / r.height⟩⟩) := by
  unfold clampPipeline
  rw [clampMaxX_skip b r t n1, clampMinX_skip b r t n2,
    clampMaxY_trigger b r t f3]
  rw [clampMinY_skip b _ _ (by exact n4)]

/-- The pipeline when only the gl-min-y (screen top) step triggers. -/
lemma clampPipeline_only_minY (b r t : RectQ)
    (n1 : ¬ b.max.x < r.max.x) (n2 : ¬ r.min.x < b.min.x)
    (n3 : ¬ r.max.y < b.max.y) (f4 : b.min.y < r.min.y) :
    clampPipeline b (r, t) =
      (⟨⟨r.min.x, b.min.y⟩, r.max⟩,
       ⟨⟨t.min.x, t.max.y - t.height * (r.max.y - b.min.y) / r.height⟩,
         t.max⟩) := by
  unfold clampPipeline
  rw [clampMaxX_skip b r t n1, clampMinX_skip b r t n2,
    clampMaxY_skip b r t n3, clampMinY_trigger b r t f4]

/-- C1: before every draw call issued by `draw_queued_with_transform`, the
GPU texture dimensions equal the engine's tracked atlas dimensions.  Both
constructors allocate the texture at the engine's initial atlas size, and a
completed draw preserves the equality (the final state is the one the draw
command is issued with — the texture is not touched after the loop, and
each `TextureTooSmall` reallocates the texture to exactly the suggested
size while informing the engine of the same size). -/
theorem C1_texture_matches_engine_atlas (cfg : BuilderCfg) (f : Facade)
    (dims : Nat × Nat) (t : List (List ℚ)) (o : Oracle) (fuel : Nat)
    (s s' : BrushState) (tr : List Cmd) :
    (∀ b, GlyphBrushBuilder.build cfg f = some b →
      b.texW = b.engine.texW ∧ b.texH = b.engine.texH ∧
      b.texW = cfg.initial_cache_size.1 ∧
      b.texH = cfg.initial_cache_size.2) ∧
    (∀ b, GlyphBrush.new f dims = some b →
      b.texW = b.engine.texW ∧ b.texH = b.engine.texH) ∧
    (s.texW = s.engine.texW → s.texH = s.engine.texH →
      draw_queued_with_transform t o fuel s = some (s', tr) →
      s'.texW = s'.engine.texW ∧ s'.texH = s'.engine.texH) := by
  refine ⟨?_, ?_, ?_⟩
  · intro b hb
    unfold GlyphBrushBuilder.build at hb
    split at hb
    · split at hb
      · split at hb
        · injection hb with hb
          subst hb
          exact ⟨rfl, rfl, rfl, rfl⟩
        · exact Option.noConfusion hb
      · exact Option.noConfusion hb
    · exact Option.noConfusion hb
  · intro b hb
    unfold GlyphBrush.new at hb
    split at hb
    · split at hb
      · injection hb with hb
        subst hb
        exact ⟨rfl, rfl⟩
      · exact Option.noConfusion hb
    · exact Option.noConfusion hb
  · intro h1 h2 hdraw
    obtain ⟨s1, tr1, r, a, hl, hu, hs, htr⟩ :=
      draw_queued_with_transform_inv t o fuel s s' tr hdraw
    have hinv := (drawLoop_props o fuel 0 s [] (s1, tr1, r) hl).2.2.2.2.2 h1 h2
    subst hs
    rcases a with verts | _
    · exact hinv
    · exact hinv

/-- C1 witness: built at cache size (256, 256) and drawn once with a
`ReDraw` answer, the texture still matches the engine's atlas size. -/
theorem C1_witness :
    testState.texW = testState.engine.texW ∧
    testState.texH = testState.engine.texH :=
  (C1_texture_matches_engine_atlas ⟨(256, 256)⟩ ⟨true, true, true⟩ (256, 256)
      IDENTITY_MATRIX4 redrawOracle 1 testState testState testTrace).2.2
    rfl rfl (by rfl)

/-- C2 counterexample: with an engine that reports `TextureTooSmall` on
every attempt — the suggested size (256, 256) never increases and already
equals the current texture size — the draw never completes for any number
of iterations: the code retries forever and never raises an error, so
there is no retry ceiling and no fatal-error treatment. -/
theorem C2_counterexample :
    ¬ ∃ (fuel : Nat) (out : BrushState × List Cmd),
      draw_queued_with_transform IDENTITY_MATRIX4 alwaysTooSmallOracle fuel
        testState = some out := by
  rintro ⟨fuel, out, h⟩
  rw [draw_allTooSmall_none alwaysTooSmallOracle
    (fun _ => ⟨(256, 256), rfl⟩) IDENTITY_MATRIX4 fuel testState] at h
  exact Option.noConfusion h

/-- C2 (amended): the resize-retry loop has no retry ceiling: every
`TextureTooSmall` response — whether or not the suggested size increases —
triggers a reallocation and a retry, and the loop exits only when the
engine returns `Ok`.  With an engine that reports `TextureTooSmall` on
every attempt the implementation loops forever: under no fuel bound does
the draw complete, and no error is ever surfaced. -/
theorem C2_no_retry_ceiling (o : Oracle)
    (hall : ∀ i, ∃ d, (o i).result = .error (.TextureTooSmall d))
    (t : List (List ℚ)) (fuel : Nat) (s : BrushState) :
    draw_queued_with_transform t o fuel s = none :=
  draw_allTooSmall_none o hall t fuel s

/-- C2 witness: the always-too-small engine keeps the draw incomplete at
fuel 5. -/
theorem C2_witness :
    draw_queued_with_transform IDENTITY_MATRIX4 alwaysTooSmallOracle 5
      testState = none :=
  C2_no_retry_ceiling alwaysTooSmallOracle (fun _ => ⟨(256, 256), rfl⟩)
    IDENTITY_MATRIX4 5 testState

/-- C4: when the pixel rectangle lies fully inside the clip bounds, no
clamp triggers: the output position is the plain gl-mapped input pixel
rectangle and the texture coordinates pass through unmodified. -/
theorem C4_inside_clip_passthrough (v : GBVertexIn)
    (hsw : 0 < v.screen_w) (hsh : 0 < v.screen_h)
    (h1 : v.bounds.min.x ≤ (v.pixel_coords.min.x : ℚ))
    (h2 : (v.pixel_coords.max.x : ℚ) ≤ v.bounds.max.x)
    (h3 : v.bounds.min.y ≤ (v.pixel_coords.min.y : ℚ))
    (h4 : (v.pixel_coords.max.y : ℚ) ≤ v.bounds.max.y) :
    to_vertex v =
      { left_top := ((glRect0 v).min.x, (glRect0 v).max.y, v.z),
        right_bottom := ((glRect0 v).max.x, (glRect0 v).min.y),
        tex_left_top := (v.tex_coords.min.x, v.tex_coords.max.y),
        tex_right_bottom := (v.tex_coords.max.x, v.tex_coords.min.y),
        color := v.color } := by
  have n1 : ¬ (glBounds v).max.x < (glRect0 v).max.x := by
    show ¬ glMapX v.screen_w v.bounds.max.x <
        glMapX v.screen_w (v.pixel_coords.max.x : ℚ)
    rw [glMapX_lt_iff _ _ _ hsw]
    exact not_lt.2 h2
  have n2 : ¬ (glRect0 v).min.x < (glBounds v).min.x := by
    show ¬ glMapX v.screen_w (v.pixel_coords.min.x : ℚ) <
        glMapX v.screen_w v.bounds.min.x
    rw [glMapX_lt_iff _ _ _ hsw]
    exact not_lt.2 h1
  have n3 : ¬ (glRect0 v).max.y < (glBounds v).max.y := by
    show ¬ glMapY v.screen_h (v.pixel_coords.max.y : ℚ) <
        glMapY v.screen_h v.bounds.max.y
    rw [glMapY_lt_iff _ _ _ hsh]
    exact not_lt.2 h4
  have n4 : ¬ (glBounds v).min.y < (glRect0 v).min.y := by
    show ¬ glMapY v.screen_h v.bounds.min.y <
        glMapY v.screen_h (v.pixel_coords.min.y : ℚ)
    rw [glMapY_lt_iff _ _ _ hsh]
    exact not_lt.2 h3
  have hpipe := clampPipeline_skip_all (glBounds v) (glRect0 v) v.tex_coords
    n1 n2 n3 n4
  simp only [to_vertex, hpipe]

/-- C4 witness: a 10–20 pixel square inside 0–100 bounds passes through
unchanged. -/
theorem C4_witness :
    (0 < insideIn.screen_w ∧ 0 < insideIn.screen_h ∧
     insideIn.bounds.min.x ≤ (insideIn.pixel_coords.min.x : ℚ) ∧
     (insideIn.pixel_coords.max.x : ℚ) ≤ insideIn.bounds.max.x ∧
     insideIn.bounds.min.y ≤ (insideIn.pixel_coords.min.y : ℚ) ∧
     (insideIn.pixel_coords.max.y : ℚ) ≤ insideIn.bounds.max.y) ∧
    to_vertex insideIn =
      { left_top := ((glRect0 insideIn).min.x, (glRect0 insideIn).max.y,
          insideIn.z),
        right_bottom := ((glRect0 insideIn).max.x, (glRect0 insideIn).min.y),
        tex_left_top := (insideIn.tex_coords.min.x,
          insideIn.tex_coords.max.y),
        tex_right_bottom := (insideIn.tex_coords.max.x,
          insideIn.tex_coords.min.y),
        color := insideIn.color } :=
  ⟨⟨by decide, by decide, by decide, by decide, by decide, by decide⟩,
   C4_inside_clip_passthrough insideIn (by decide) (by decide) (by decide)
     (by decide) (by decide) (by decide)⟩

/-- C3: when the pixel rectangle exceeds the clip bounds on exactly one
edge, the corresponding texture edge shrinks by the same proportion as the
pixel edge (`new_tex_max_x = tex_min_x + tex_width * new_pixel_width /
old_pixel_width` and symmetrically).  The code computes the ratio in gl
space; since the gl map is affine, that ratio equals the pixel-space ratio
of the claim, and over `ℚ` the equality is exact.  The four conjuncts
cover the right, left, bottom and top edges (screen orientation, y growing
downward). -/
theorem C3_tex_shrinks_proportionally (v : GBVertexIn)
    (hsw : 0 < v.screen_w) (hsh : 0 < v.screen_h)
    (hx : (v.pixel_coords.min.x : ℚ) < (v.pixel_coords.max.x : ℚ))
    (hy : (v.pixel_coords.min.y : ℚ) < (v.pixel_coords.max.y : ℚ)) :
    (v.bounds.max.x < (v.pixel_coords.max.x : ℚ) →
     v.bounds.min.x ≤ (v.pixel_coords.min.x : ℚ) →
     (v.pixel_coords.max.y : ℚ) ≤ v.bounds.max.y →
     v.bounds.min.y ≤ (v.pixel_coords.min.y : ℚ) →
     (to_vertex v).tex_right_bottom.1 =
       v.tex_coords.min.x + v.tex_coords.width *
         ((v.bounds.max.x - (v.pixel_coords.min.x : ℚ)) /
          ((v.pixel_coords.max.x : ℚ) - (v.pixel_coords.min.x : ℚ)))) ∧
    ((v.pixel_coords.max.x : ℚ) ≤ v.bounds.max.x →
     (v.pixel_coords.min.x : ℚ) < v.bounds.min.x →
     (v.pixel_coords.max.y : ℚ) ≤ v.bounds.max.y →
     v.bounds.min.y ≤ (v.pixel_coords.min.y : ℚ) →
     (to_vertex v).tex_left_top.1 =
       v.tex_coords.max.x - v.tex_coords.width *
         (((v.pixel_coords.max.x : ℚ) - v.bounds.min.x) /
          ((v.pixel_coords.max.x : ℚ) - (v.pixel_coords.min.x : ℚ)))) ∧
    ((v.pixel_coords.max.x : ℚ) ≤ v.bounds.max.x →
     v.bounds.min.x ≤ (v.pixel_coords.min.x : ℚ) →
     v.bounds.max.y < (v.pixel_coords.max.y : ℚ) →
     v.bounds.min.y ≤ (v.pixel_coords.min.y : ℚ) →
     (to_vertex v).tex_left_top.2 =
       v.tex_coords.min.y + v.tex_coords.height *
         ((v.bounds.max.y - (v.pixel_coords.min.y : ℚ)) /
          ((v.pixel_coords.max.y : ℚ) - (v.pixel_coords.min.y : ℚ)))) ∧
    ((v.pixel_coords.max.x : ℚ) ≤ v.bounds.max.x →
     v.bounds.min.x ≤ (v.pixel_coords.min.x : ℚ) →
     (v.pixel_coords.max.y : ℚ) ≤ v.bounds.max.y →
     (v.pixel_coords.min.y : ℚ) < v.bounds.min.y →
     (to_vertex v).tex_right_bottom.2 =
       v.tex_coords.max.y - v.tex_coords.height *
         (((v.pixel_coords.max.y : ℚ) - v.bounds.min.y) /
          ((v.pixel_coords.max.y : ℚ) - (v.pixel_coords.min.y : ℚ)))) := by
  have hsw0 : v.screen_w ≠ 0 := ne_of_gt hsw
  have hsh0 : v.screen_h ≠ 0 := ne_of_gt hsh
  have hdx : (v.pixel_coords.max.x : ℚ) - (v.pixel_coords.min.x : ℚ) ≠ 0 :=
    sub_ne_zero.2 (ne_of_gt hx)
  have hdy : (v.pixel_coords.min.y : ℚ) - (v.pixel_coords.max.y : ℚ) ≠ 0 :=
    sub_ne_zero.2 (ne_of_lt hy)
  refine ⟨?_, ?_, ?_, ?_⟩
  · intro e1 m2 m3 m4
    have f1 : (glBounds v).max.x < (glRect0 v).max.x := by
      show glMapX v.screen_w v.bounds.max.x <
          glMapX v.screen_w (v.pixel_coords.max.x : ℚ)
      rw [glMapX_lt_iff _ _ _ hsw]
      exact e1
    have n2 : ¬ (glRect0 v).min.x < (glBounds v).min.x := by
      show ¬ glMapX v.screen_w (v.pixel_coords.min.x : ℚ) <
          glMapX v.screen_w v.bounds.min.x
      rw [glMapX_lt_iff _ _ _ hsw]
      exact not_lt.2 m2
    have n3 : ¬ (glRect0 v).max.y < (glBounds v).max.y := by
      show ¬ glMapY v.screen_h (v.pixel_coords.max.y : ℚ) <
          glMapY v.screen_h v.bounds.max.y
      rw [glMapY_lt_iff _ _ _ hsh]
      exact not_lt.2 m3
    have n4 : ¬ (glBounds v).min.y < (glRect0 v).min.y := by
      show ¬ glMapY v.screen_h v.bounds.min.y <
          glMapY v.screen_h (v.pixel_coords.min.y : ℚ)
      rw [glMapY_lt_iff _ _ _ hsh]
      exact not_lt.2 m4
    have hpipe := clampPipeline_only_maxX (glBounds v) (glRect0 v)
      v.tex_coords f1 n2 n3 n4
    have hout : (to_vertex v).tex_right_bottom.1 =
        (clampPipeline (glBounds v) (glRect0 v, v.tex_coords)).2.max.x := rfl
    rw [hout, hpipe]
    show v.tex_coords.min.x + v.tex_coords.width *
        (glMapX v.screen_w v.bounds.max.x -
         glMapX v.screen_w (v.pixel_coords.min.x : ℚ)) /
        (glMapX v.screen_w (v.pixel_coords.max.x : ℚ) -
         glMapX v.screen_w (v.pixel_coords.min.x : ℚ)) = _
    rw [glMapX_sub, glMapX_sub, ratio_cancel _ _ _ _ hsw0 hdx]
  · intro m1 e2 m3 m4
    have n1 : ¬ (glBounds v).max.x < (glRect0 v).max.x := by
      show ¬ glMapX v.screen_w v.bounds.max.x <
          glMapX v.screen_w (v.pixel_coords.max.x : ℚ)
      rw [glMapX_lt_iff _ _ _ hsw]
      exact not_lt.2 m1
    have f2 : (glRect0 v).min.x < (glBounds v).min.x := by
      show glMapX v.screen_w (v.pixel_coords.min.x : ℚ) <
          glMapX v.screen_w v.bounds.min.x
      rw [glMapX_lt_iff _ _ _ hsw]
      exact e2
    have n3 : ¬ (glRect0 v).max.y < (glBounds v).max.y := by
      show ¬ glMapY v.screen_h (v.pixel_coords.max.y : ℚ) <
          glMapY v.screen_h v.bounds.max.y
      rw [glMapY_lt_iff _ _ _ hsh]
      exact not_lt.2 m3
    have n4 : ¬ (glBounds v).min.y < (glRect0 v).min.y := by
      show ¬ glMapY v.screen_h v.bounds.min.y <
          glMapY v.screen_h (v.pixel_coords.min.y : ℚ)
      rw [glMapY_lt_iff _ _ _ hsh]
      exact not_lt.2 m4
    have hpipe := clampPipeline_only_minX (glBounds v) (glRect0 v)
      v.tex_coords n1 f2 n3 n4
    have hout : (to_vertex v).tex_left_top.1 =
        (clampPipeline (glBounds v) (glRect0 v, v.tex_coords)).2.min.x := rfl
    rw [hout, hpipe]
    show v.tex_coords.max.x - v.tex_coords.width *
        (glMapX v.screen_w (v.pixel_coords.max.x : ℚ) -
         glMapX v.screen_w v.bounds.min.x) /
        (glMapX v.screen_w (v.pixel_coords.max.x : ℚ) -
         glMapX v.screen_w (v.pixel_coords.min.x : ℚ)) = _
    rw [glMapX_sub, glMapX_sub, ratio_cancel _ _ _ _ hsw0 hdx]
  · intro m1 m2 e3 m4
    have n1 : ¬ (glBounds v).max.x < (glRect0 v).max.x := by
      show ¬ glMapX v.screen_w v.bounds.max.x <
          glMapX v.screen_w (v.pixel_coords.max.x : ℚ)
      rw [glMapX_lt_iff _ _ _ hsw]
      exact not_lt.2 m1
    have n2 : ¬ (glRect0 v).min.x < (glBounds v).min.x := by
      show ¬ glMapX v.screen_w (v.pixel_coords.min.x : ℚ) <
          glMapX v.screen_w v.bounds.min.x
      rw [glMapX_lt_iff _ _ _ hsw]
      exact not_lt.2 m2
    have f3 : (glRect0 v).max.y < (glBounds v).max.y := by
      show glMapY v.screen_h (v.pixel_coords.max.y : ℚ) <
          glMapY v.screen_h v.bounds.max.y
      rw [glMapY_lt_iff _ _ _ hsh]
      exact e3
    have n4 : ¬ (glBounds v).min.y < (glRect0 v).min.y := by
      show ¬ glMapY v.screen_h v.bounds.min.y <
          glMapY v.screen_h (v.pixel_coords.min.y : ℚ)
      rw [glMapY_lt_iff _ _ _ hsh]
      exact not_lt.2 m4
    have hpipe := clampPipeline_only_maxY (glBounds v) (glRect0 v)
      v.tex_coords n1 n2 f3 n4
    have hout : (to_vertex v).tex_left_top.2 =
        (clampPipeline (glBounds v) (glRect0 v, v.tex_coords)).2.max.y := rfl
    rw [hout, hpipe]
    show v.tex_coords.min.y + v.tex_coords.height *
        (glMapY v.screen_h v.bounds.max.y -
         glMapY v.screen_h (v.pixel_coords.min.y : ℚ)) /
        (glMapY v.screen_h (v.pixel_coords.max.y : ℚ) -
         glMapY v.screen_h (v.pixel_coords.min.y : ℚ)) = _
    rw [glMapY_sub, glMapY_sub, ratio_cancel _ _ _ _ hsh0 hdy]
    rw [show (v.pixel_coords.min.y : ℚ) - v.bounds.max.y =
        -(v.bounds.max.y - (v.pixel_coords.min.y : ℚ)) from by ring,
      show (v.pixel_coords.min.y : ℚ) - (v.pixel_coords.max.y : ℚ) =
        -((v.pixel_coords.max.y : ℚ) - (v.pixel_coords.min.y : ℚ)) from by
          ring,
      neg_div_neg_eq]
  · intro m1 m2 m3 e4
    have n1 : ¬ (glBounds v).max.x < (glRect0 v).max.x := by
      show ¬ glMapX v.screen_w v.bounds.max.x <
          glMapX v.screen_w (v.pixel_coords.max.x : ℚ)
      rw [glMapX_lt_iff _ _ _ hsw]
      exact not_lt.2 m1
    have n2 : ¬ (glRect0 v).min.x < (glBounds v).min.x := by
      show ¬ glMapX v.screen_w (v.pixel_coords.min.x : ℚ) <
          glMapX v.screen_w v.bounds.min.x
      rw [glMapX_lt_iff _ _ _ hsw]
      exact not_lt.2 m2
    have n3 : ¬ (glRect0 v).max.y < (glBounds v).max.y := by
      show ¬ glMapY v.screen_h (v.pixel_coords.max.y : ℚ) <
          glMapY v.screen_h v.bounds.max.y
      rw [glMapY_lt_iff _ _ _ hsh]
      exact not_lt.2 m3
    have f4 : (glBounds v).min.y < (glRect0 v).min.y := by
      show glMapY v.screen_h v.bounds.min.y <
          glMapY v.screen_h (v.pixel_coords.min.y : ℚ)
      rw [glMapY_lt_iff _ _ _ hsh]
      exact e4
    have hpipe := clampPipeline_only_minY (glBounds v) (glRect0 v)
      v.tex_coords n1 n2 n3 f4
    have hout : (to_vertex v).tex_right_bottom.2 =
        (clampPipeline (glBounds v) (glRect0 v, v.tex_coords)).2.min.y := rfl
    rw [hout, hpipe]
    show v.tex_coords.max.y - v.tex_coords.height *
        (glMapY v.screen_h (v.pixel_coords.max.y : ℚ) -
         glMapY v.screen_h v.bounds.min.y) /
        (glMapY v.screen_h (v.pixel_coords.max.y : ℚ) -
         glMapY v.screen_h (v.pixel_coords.min.y : ℚ)) = _
    rw [glMapY_sub, glMapY_sub, ratio_cancel _ _ _ _ hsh0 hdy]
    rw [show v.bounds.min.y - (v.pixel_coords.max.y : ℚ) =
        -((v.pixel_coords.max.y : ℚ) - v.bounds.min.y) from by ring,
      show (v.pixel_coords.min.y : ℚ) - (v.pixel_coords.max.y : ℚ) =
        -((v.pixel_coords.max.y : ℚ) - (v.pixel_coords.min.y : ℚ)) from by
          ring,
      neg_div_neg_eq]

/-- C3 witness: a 0–10 pixel square clipped at right bound 5 keeps half of
its texture width: the output `tex_right_bottom.x` is
`0 + 1 * ((5 - 0) / (10 - 0))`. -/
theorem C3_witness :
    (0 < rightClipIn.screen_w ∧ 0 < rightClipIn.screen_h ∧
     (rightClipIn.pixel_coords.min.x : ℚ) <
       (rightClipIn.pixel_coords.max.x : ℚ) ∧
     (rightClipIn.pixel_coords.min.y : ℚ) <
       (rightClipIn.pixel_coords.max.y : ℚ) ∧
     rightClipIn.bounds.max.x < (rightClipIn.pixel_coords.max.x : ℚ)) ∧
    (to_vertex rightClipIn).tex_right_bottom.1 =
      rightClipIn.tex_coords.min.x + rightClipIn.tex_coords.width *
        ((rightClipIn.bounds.max.x - (rightClipIn.pixel_coords.min.x : ℚ)) /
         ((rightClipIn.pixel_coords.max.x : ℚ) -
          (rightClipIn.pixel_coords.min.x : ℚ))) :=
  ⟨⟨by decide, by decide, by decide, by decide, by decide⟩,
   (C3_tex_shrinks_proportionally rightClipIn (by decide) (by decide)
      (by decide) (by decide)).1 (by decide) (by decide) (by decide)
     (by decide)⟩

/-- C5: for every input the vertex adapter emits exactly one vertex, wired
per the Y-flip convention: left-top is (clamped min x, clamped max y,
depth), right-bottom is (clamped max x, clamped min y), texture-left-top is
(tex min x, tex max y), texture-right-bottom is (tex max x, tex min y), and
the color is the glyph's color. -/
theorem C5_vertex_layout (v : GBVertexIn) :
    to_vertex v =
      { left_top :=
          ((clampPipeline (glBounds v) (glRect0 v, v.tex_coords)).1.min.x,
           (clampPipeline (glBounds v) (glRect0 v, v.tex_coords)).1.max.y,
           v.z),
        right_bottom :=
          ((clampPipeline (glBounds v) (glRect0 v, v.tex_coords)).1.max.x,
           (clampPipeline (glBounds v) (glRect0 v, v.tex_coords)).1.min.y),
        tex_left_top :=
          ((clampPipeline (glBounds v) (glRect0 v, v.tex_coords)).2.min.x,
           (clampPipeline (glBounds v) (glRect0 v, v.tex_coords)).2.max.y),
        tex_right_bottom :=
          ((clampPipeline (glBounds v) (glRect0 v, v.tex_coords)).2.max.x,
           (clampPipeline (glBounds v) (glRect0 v, v.tex_coords)).2.min.y),
        color := v.color } := rfl

/-- C6: every completed `draw_queued_with_transform` issues exactly one
draw call: its geometry is the constant 4-vertex instance quad, it draws
one instance per entry of the vertex buffer, samples the atlas with
clamp-to-edge wrapping and linear minify/magnify filtering, and passes the
caller's transform as a uniform. -/
theorem C6_exactly_one_draw_call (t : List (List ℚ)) (o : Oracle)
    (fuel : Nat) (s s' : BrushState) (tr : List Cmd)
    (h : draw_queued_with_transform t o fuel s = some (s', tr)) :
    tr.countP Cmd.isDraw = 1 ∧
    Cmd.draw (List.replicate 4 ({ v := 0 } : InstanceVertex))
      s'.verts.length s'.index_buffer ⟨.Clamp, .Linear, .Linear⟩ t
      s'.params ∈ tr ∧
    ((Sampler.new.wrap_function .Clamp).minify_filter .Linear).magnify_filter
      .Linear = ⟨.Clamp, .Linear, .Linear⟩ := by
  obtain ⟨s1, tr1, r, a, hl, hu, hs, htr⟩ :=
    draw_queued_with_transform_inv t o fuel s s' tr h
  have h0 : tr1.countP Cmd.isDraw = 0 :=
    (drawLoop_props o fuel 0 s [] (s1, tr1, r) hl).2.2.2.2.1
  subst htr
  refine ⟨?_, ?_, rfl⟩
  · rw [List.countP_append, h0]
    rfl
  · exact List.mem_append_right _
      (List.mem_cons_of_mem _ (List.mem_cons_of_mem _
        (List.mem_cons_self _ _)))

/-- C6 witness: one draw of `testState` against the redraw engine issues
exactly the expected single draw command. -/
theorem C6_witness :
    testTrace.countP Cmd.isDraw = 1 ∧
    Cmd.draw (List.replicate 4 ({ v := 0 } : InstanceVertex))
      testState.verts.length testState.index_buffer
      ⟨.Clamp, .Linear, .Linear⟩ IDENTITY_MATRIX4 testState.params ∈
      testTrace ∧
    ((Sampler.new.wrap_function .Clamp).minify_filter .Linear).magnify_filter
      .Linear = ⟨.Clamp, .Linear, .Linear⟩ :=
  C6_exactly_one_draw_call IDENTITY_MATRIX4 redrawOracle 1 testState
    testState testTrace (by rfl)

/-- C7: when the engine answers "unchanged since last frame" (`ReDraw`, as
it does on a second draw with no intervening queue calls), the stored
vertices are reused unchanged; when it answers `Draw`, they are replaced
wholesale. -/
theorem C7_redraw_reuses_vertices (t : List (List ℚ)) (o : Oracle)
    (fuel : Nat) (s : BrushState) (ups : List (RectU × Nat))
    (vs : List GlyphVertex) :
    (o 0 = ⟨ups, .ok .ReDraw⟩ →
      (draw_queued_with_transform t o (fuel + 1) s).map (fun p => p.1.verts) =
        some s.verts) ∧
    (o 0 = ⟨ups, .ok (.Draw vs)⟩ →
      (draw_queued_with_transform t o (fuel + 1) s).map (fun p => p.1.verts) =
        some vs) := by
  constructor <;> intro h0 <;>
    simp [draw_queued_with_transform, drawLoop, h0, unwrapResult]

/-- C7 witness: a draw answered with `ReDraw` leaves the stored vertex of
`testState` in place. -/
theorem C7_witness :
    redrawOracle 0 = ⟨[], .ok .ReDraw⟩ ∧
    (draw_queued_with_transform IDENTITY_MATRIX4 redrawOracle 1
        testState).map (fun p => p.1.verts) = some testState.verts :=
  ⟨rfl, (C7_redraw_reuses_vertices IDENTITY_MATRIX4 redrawOracle 0 testState
      [] []).1 rfl⟩

/-- C8: the `TextureTooSmall` signal is handled inside the loop and never
surfaced: whenever the loop exits, the stored brush action is the `Ok`
variant, so the `unwrap` after the loop cannot hit the error branch. -/
theorem C8_error_never_surfaced (o : Oracle) (fuel : Nat) (s s1 : BrushState)
    (tr : List Cmd) (r : BrushResult)
    (h : drawLoop o fuel 0 s [] = some (s1, tr, r)) :
    (unwrapResult r).isSome = true :=
  (drawLoop_props o fuel 0 s [] (s1, tr, r) h).1

/-- C8 witness: a loop exit against the redraw engine carries an `Ok`. -/
theorem C8_witness :
    (unwrapResult (Except.ok BrushAction.ReDraw)).isSome = true :=
  C8_error_never_surfaced redrawOracle 1 testState testState []
    (.ok .ReDraw) (by rfl)

/-- C9: construction fails fatally when shader compilation or the initial
texture allocation fails: both `GlyphBrushBuilder::build` and
`GlyphBrush::new` propagate the panic (`none`), and no partially
constructed renderer is returned. -/
theorem C9_construction_failure_propagates (cfg : BuilderCfg) (f : Facade)
    (dims : Nat × Nat)
    (h : f.programOk = false ∨ f.textureOk = false) :
    GlyphBrushBuilder.build cfg f = none ∧ GlyphBrush.new f dims = none := by
  rcases f with ⟨p, tx, bf⟩
  constructor
  · cases p <;> cases tx <;> cases bf <;>
      simp_all [GlyphBrushBuilder.build]
  · cases p <;> cases tx <;>
      simp_all [GlyphBrush.new]

/-- C9 witness: a facade whose shader compilation fails makes both
constructors panic. -/
theorem C9_witness :
    ((false : Bool) = false ∨ (true : Bool) = false) ∧
    GlyphBrushBuilder.build ⟨(256, 256)⟩ ⟨false, true, true⟩ = none ∧
    GlyphBrush.new ⟨false, true, true⟩ (256, 256) = none :=
  ⟨Or.inl rfl,
    C9_construction_failure_propagates ⟨(256, 256)⟩ ⟨false, true, true⟩
      (256, 256) (Or.inl rfl)⟩

/-- C10: `draw_queued` behaves identically to `draw_queued_with_transform`
called with `IDENTITY_MATRIX4`, and that constant is exactly the 4×4
identity matrix the spec describes. -/
theorem C10_default_transform_is_identity :
    (∀ (o : Oracle) (fuel : Nat) (s : BrushState),
      draw_queued o fuel s =
        draw_queued_with_transform IDENTITY_MATRIX4 o fuel s) ∧
    IDENTITY_MATRIX4 = identityMatrixSpec :=
  ⟨fun _ _ _ => rfl, by decide⟩

end GliumGlyph
